import Mathlib

/-!
Shallow embedding of the CRM pallet (src/pallets/crm/src/lib.rs) of
PolkaMusic-Core, together with theorems checking the natural-language
specification against it.

Bytes are modelled as `Nat` (the relevant byte codes: 34 = quotation mark,
44 = comma, 58 = colon, 91 = open square bracket, 93 = close square bracket,
92 = backslash, 123 = open brace, 125 = close brace, 32 = space).
Byte sequences (`Vec<u8>`) are modelled as `List Nat`.
-/

namespace Crm

/-- Flag state of the structural JSON validator `json_check_validity`
(lib.rs lines 289-293): `s` is the outside-string flag, `d` the colon flag,
`pg` the object-balance flag, `ps` the array-balance flag. -/
structure JcvFlags where
  s : Bool
  d : Bool
  pg : Bool
  ps : Bool
deriving DecidableEq, Repr

/-- Scan loop of `json_check_validity` (lib.rs lines 294-331): one step per
byte `b`, carrying the previous byte `bp`.  The square/curly bracket updates
happen first (they have no `continue`), then the quote/colon transitions. -/
def jcv_scan : List Nat → JcvFlags → Nat → JcvFlags
  | [], f, _ => f
  | b :: rest, f, bp =>
    let ps1 := if b = 91 ∧ f.s = true then false else f.ps
    let ps2 :=
      if b = 93 ∧ f.s = true ∧ ps1 = false then true
      else if b = 93 ∧ f.s = true ∧ ps1 = true then false
      else ps1
    let pg1 := if b = 123 ∧ f.s = true then false else f.pg
    let pg2 :=
      if b = 125 ∧ f.s = true ∧ pg1 = false then true
      else if b = 125 ∧ f.s = true ∧ pg1 = true then false
      else pg1
    if b = 34 ∧ f.s = true ∧ bp ≠ 92 then
      jcv_scan rest ⟨false, false, pg2, ps2⟩ b
    else if b = 58 ∧ f.s = true then
      jcv_scan rest ⟨f.s, true, pg2, ps2⟩ b
    else if b = 34 ∧ f.s = false ∧ bp ≠ 92 then
      jcv_scan rest ⟨true, true, pg2, ps2⟩ b
    else
      jcv_scan rest ⟨f.s, f.d, pg2, ps2⟩ b

/-- Structural JSON validator `json_check_validity` (lib.rs lines 267-346):
length and outer-bracket early rejects, then the flag scan; at termination
only `s`, `d` and `ps` are consulted (`pg` is not). -/
def json_check_validity (j : List Nat) : Bool :=
  if j.length < 2 then false
  else if j.headD 0 = 123 ∧ j.getLastD 0 ≠ 125 then false
  else if j.headD 0 = 91 ∧ j.getLastD 0 ≠ 93 then false
  else if j.headD 0 ≠ 123 ∧ j.headD 0 ≠ 91 then false
  else if j.getLastD 0 ≠ 125 ∧ j.getLastD 0 ≠ 93 then false
  else
    let f := jcv_scan j ⟨true, true, true, true⟩ 32
    f.s && f.d && f.ps

/-- The five early-reject checks of `json_check_validity` (lib.rs lines
269-287) on their own, for stating that the final acceptance consults only
the `s`, `d`, `ps` flags of the scan. -/
def jcv_early_ok (j : List Nat) : Bool :=
  if j.length < 2 then false
  else if j.headD 0 = 123 ∧ j.getLastD 0 ≠ 125 then false
  else if j.headD 0 = 91 ∧ j.getLastD 0 ≠ 93 then false
  else if j.headD 0 ≠ 123 ∧ j.headD 0 ≠ 91 then false
  else if j.getLastD 0 ≠ 125 ∧ j.getLastD 0 ≠ 93 then false
  else true

/-- Value scan of `json_get_value` (lib.rs lines 373-401), over the byte
slice from just after the matched pattern up to (excluding) the last byte of
the document.  `op` is the outside-string flag, `os` the outside-array flag,
`lb` the last collected byte (used for the backslash-escape rule).  Returning
the collected list models `result`; stopping returns what was collected so
far (the `break` cases). -/
def jgv_scan : List Nat → Bool → Bool → Nat → List Nat
  | [], _, _, _ => []
  | c :: rest, op, os, lb =>
    let os1 := if c = 91 ∧ op = true ∧ os = true then false else os
    let os2 := if c = 125 ∧ op = true ∧ os1 = false then true else os1
    if c = 58 ∧ op = true then jgv_scan rest op os2 lb
    else if c = 34 ∧ op = true ∧ lb ≠ 92 then jgv_scan rest false os2 lb
    else if c = 34 ∧ op = false ∧ lb ≠ 92 then []
    else if c = 125 ∧ op = true then []
    else if c = 44 ∧ op = true ∧ os2 = true then []
    else c :: jgv_scan rest op os2 c

/-- Pattern search loop of `json_get_value` (lib.rs lines 360-372), walking
the suffixes of the document while counting the position `x`: the loop over
`x` ends when the suffix is empty (`x` reached the document length), breaks
unmatched once fewer than `k.length` bytes remain (the source's
`x + kl > jl` break), and returns the first `x` at which every byte of the
window of length `k.length` equals the pattern `k` (the source counts
matching positions `m` and tests `m == kl`). -/
def jgv_loop : List Nat → List Nat → Nat → Option Nat
  | [], _, _ => none
  | s@(_ :: rest), k, x =>
    if s.length < k.length then none
    else if s.take k.length = k then some x
    else jgv_loop rest k (x + 1)

/-- Field extractor `json_get_value` (lib.rs lines 348-406): builds the
pattern quote-key-quote-colon, finds its first occurrence, then scans the
value from after the pattern up to (excluding) the document's last byte. -/
def json_get_value (j key : List Nat) : List Nat :=
  let k := ([34] ++ key) ++ [34, 58]
  match jgv_loop j k 0 with
  | none => []
  | some x =>
      jgv_scan ((j.drop (x + k.length)).take (j.length - 1 - (x + k.length)))
        true true 32

/-- Continuation-byte test for UTF-8 validation (0x80..0xBF). -/
def utf8_cont (b : Nat) : Bool := 128 ≤ b && b ≤ 191

/-- UTF-8 validity of a byte sequence, as checked by `str::from_utf8`
(lib.rs lines 146-149 and the analogous decode sites): standard UTF-8 with
overlong encodings, surrogates and values above 0x10FFFF rejected. -/
def utf8_valid : List Nat → Bool
  | [] => true
  | b :: rest =>
    if b ≤ 127 then utf8_valid rest
    else if 194 ≤ b ∧ b ≤ 223 then
      match rest with
      | c1 :: rest2 => utf8_cont c1 && utf8_valid rest2
      | [] => false
    else if b = 224 then
      match rest with
      | c1 :: c2 :: rest2 => (160 ≤ c1 && c1 ≤ 191) && utf8_cont c2 && utf8_valid rest2
      | _ => false
    else if 225 ≤ b ∧ b ≤ 236 then
      match rest with
      | c1 :: c2 :: rest2 => utf8_cont c1 && utf8_cont c2 && utf8_valid rest2
      | _ => false
    else if b = 237 then
      match rest with
      | c1 :: c2 :: rest2 => (128 ≤ c1 && c1 ≤ 159) && utf8_cont c2 && utf8_valid rest2
      | _ => false
    else if 238 ≤ b ∧ b ≤ 239 then
      match rest with
      | c1 :: c2 :: rest2 => utf8_cont c1 && utf8_cont c2 && utf8_valid rest2
      | _ => false
    else if b = 240 then
      match rest with
      | c1 :: c2 :: c3 :: rest2 =>
          (144 ≤ c1 && c1 ≤ 191) && utf8_cont c2 && utf8_cont c3 && utf8_valid rest2
      | _ => false
    else if 241 ≤ b ∧ b ≤ 243 then
      match rest with
      | c1 :: c2 :: c3 :: rest2 =>
          utf8_cont c1 && utf8_cont c2 && utf8_cont c3 && utf8_valid rest2
      | _ => false
    else if b = 244 then
      match rest with
      | c1 :: c2 :: c3 :: rest2 =>
          (128 ≤ c1 && c1 ≤ 143) && utf8_cont c2 && utf8_cont c3 && utf8_valid rest2
      | _ => false
    else false

/-- Digit-accumulation loop of `u64::from_str`: decimal digits only,
rejecting any other byte. -/
def parse_digits : List Nat → Nat → Option Nat
  | [], acc => some acc
  | b :: rest, acc =>
    if 48 ≤ b ∧ b ≤ 57 then parse_digits rest (acc * 10 + (b - 48)) else none

/-- Rust `u64::from_str` on the bytes of a string: an optional leading plus
sign, then one or more decimal digits; empty input, any non-digit byte, and
overflow above the 64-bit maximum are errors.  A leading minus sign is an
error for an unsigned type. -/
def u64_from_str (s : List Nat) : Option Nat :=
  match s with
  | [] => none
  | b :: rest =>
    let digits := if b = 43 then rest else s
    match digits with
    | [] => none
    | _ :: _ =>
      match parse_digits digits 0 with
      | some v => if v < 2 ^ 64 then some v else none
      | none => none

/-- Decode used at every numeric field of `new_crmdata` (for example lib.rs
lines 146-153): `str::from_utf8` with a fallback string on invalid UTF-8,
then `u64::from_str` with a fallback value on parse failure.  `fbStr` is the
fallback string's bytes and `fbVal` the fallback number (the source uses
matching pairs: "0" with 0, "100" with 100). -/
def decode_u64 (bytes fbStr : List Nat) (fbVal : Nat) : Nat :=
  let s := if utf8_valid bytes then bytes else fbStr
  match u64_from_str s with
  | some v => v
  | none => fbVal

/-- Byte string of the fallback literal "0". -/
def fb0 : List Nat := [48]

/-- Byte string of the fallback literal "100". -/
def fb100 : List Nat := [49, 48, 48]

/-- Byte string of the literal field key `ipfshash` (ASCII). -/
def keyIpfshash : List Nat := [105, 112, 102, 115, 104, 97, 115, 104]

/-- Byte string of the literal field key `ipfshashprivate` (ASCII). -/
def keyIpfshashprivate : List Nat :=
  [105, 112, 102, 115, 104, 97, 115, 104, 112, 114, 105, 118, 97, 116, 101]

/-- Byte string of the literal field key `globalquorum` (ASCII). -/
def keyGlobalquorum : List Nat :=
  [103, 108, 111, 98, 97, 108, 113, 117, 111, 114, 117, 109]

/-- Byte string of the literal field key `mastershare` (ASCII). -/
def keyMastershare : List Nat :=
  [109, 97, 115, 116, 101, 114, 115, 104, 97, 114, 101]

/-- Byte string of the literal field key `masterquorum` (ASCII). -/
def keyMasterquorum : List Nat :=
  [109, 97, 115, 116, 101, 114, 113, 117, 111, 114, 117, 109]

/-- Byte string of the literal field key `compositionshare` (ASCII). -/
def keyCompositionshare : List Nat :=
  [99, 111, 109, 112, 111, 115, 105, 116, 105, 111, 110, 115, 104, 97, 114, 101]

/-- Byte string of the literal field key `compositionquorum` (ASCII). -/
def keyCompositionquorum : List Nat :=
  [99, 111, 109, 112, 111, 115, 105, 116, 105, 111, 110, 113, 117, 111, 114, 117, 109]

/-- Byte string of the literal field key `othercontractsshare` (ASCII). -/
def keyOthercontractsshare : List Nat :=
  [111, 116, 104, 101, 114, 99, 111, 110, 116, 114, 97, 99, 116, 115, 115, 104, 97, 114, 101]

/-- Byte string of the literal field key `othercontractsquorum` (ASCII). -/
def keyOthercontractsquorum : List Nat :=
  [111, 116, 104, 101, 114, 99, 111, 110, 116, 114, 97, 99, 116, 115, 113, 117, 111, 114, 117, 109]

/-- Byte string of the literal field key `crodwfundingshares` (ASCII) — the
literal key the source searches for at lib.rs line 240 (note the source's
own spelling). -/
def keyCrodwfundingshares : List Nat :=
  [99, 114, 111, 100, 119, 102, 117, 110, 100, 105, 110, 103, 115, 104, 97, 114, 101, 115]

/-- Extracted `ipfshash` field of a payload (lib.rs line 136). -/
def ipfshash (d : List Nat) : List Nat := json_get_value d keyIpfshash

/-- Extracted `ipfshashprivate` field of a payload (lib.rs line 140). -/
def ipfshashprivate (d : List Nat) : List Nat := json_get_value d keyIpfshashprivate

/-- Decoded `globalquorum` value (lib.rs lines 143-153), fallback 0. -/
def globalquorumvalue (d : List Nat) : Nat :=
  decode_u64 (json_get_value d keyGlobalquorum) fb0 0

/-- Decoded `mastershare` value (lib.rs lines 157-167), fallback 0. -/
def mastersharevalue (d : List Nat) : Nat :=
  decode_u64 (json_get_value d keyMastershare) fb0 0

/-- Decoded `masterquorum` value (lib.rs lines 171-181), fallback 0. -/
def masterquorumvalue (d : List Nat) : Nat :=
  decode_u64 (json_get_value d keyMasterquorum) fb0 0

/-- Decoded `compositionshare` value (lib.rs lines 185-195), fallback 0. -/
def compositionsharevalue (d : List Nat) : Nat :=
  decode_u64 (json_get_value d keyCompositionshare) fb0 0

/-- Decoded `compositionquorum` value (lib.rs lines 199-209), fallback 0. -/
def compositionquorumvalue (d : List Nat) : Nat :=
  decode_u64 (json_get_value d keyCompositionquorum) fb0 0

/-- Decoded `othercontractsshare` value (lib.rs lines 213-223), fallback 100. -/
def othercontractssharevalue (d : List Nat) : Nat :=
  decode_u64 (json_get_value d keyOthercontractsshare) fb100 100

/-- Decoded `othercontractsquorum` value (lib.rs lines 226-236), fallback 100. -/
def othercontractsquorumvalue (d : List Nat) : Nat :=
  decode_u64 (json_get_value d keyOthercontractsquorum) fb100 100

/-- Decoded crowd-funding share value (lib.rs lines 239-249): extracted with
the literal key `crodwfundingshares`, fallback 0. -/
def crodwfundingsharevalue (d : List Nat) : Nat :=
  decode_u64 (json_get_value d keyCrodwfundingshares) fb0 0

/-- Total shares (lib.rs line 252). -/
def totalshares (d : List Nat) : Nat :=
  mastersharevalue d + compositionsharevalue d +
    othercontractssharevalue d + crodwfundingsharevalue d

/-- Error kinds of the pallet (lib.rs lines 44-81). -/
inductive CrmError where
  | NoneValue
  | TooShort
  | TooLong
  | InvalidValue
  | InvalidJson
  | DuplicatedCrmId
  | InvalidIpfsHash
  | InvalidIpfsHashPrivate
  | InvalidGlobalQuorum
  | InvalidMasterShare
  | InvalidMasterQuorum
  | InvalidCompositionShare
  | InvalidCompositionQuorum
  | InvalidOtherContractsShare
  | InvalidOtherContractsQuorum
  | InvalidCrowdFundingshares
  | InvalidTotalShares
deriving DecidableEq, Repr

/-- Opaque owner identity (the pallet's `T::AccountId`), modelled as `Nat`. -/
abbrev AccountId := Nat

/-- The `CrmData` double map (lib.rs lines 27-32): an association list from
(account, crmid) to the stored payload bytes; insertion prepends (a later
entry for the same key shadows an earlier one, matching map overwrite). -/
abbrev Store := List ((AccountId × Nat) × List Nat)

/-- Lookup `<CrmData<T>>::get(&sender, &crmid)` (lib.rs line 121). -/
def crmdata_get (st : Store) (sender : AccountId) (crmid : Nat) : Option (List Nat) :=
  (st.find? (fun e => e.1.1 == sender && e.1.2 == crmid)).map (fun e => e.2)

/-- Insert `<CrmData<T>>::insert(&sender, crmid, crmdata)` (lib.rs line 258). -/
def crmdata_insert (st : Store) (sender : AccountId) (crmid : Nat)
    (v : List Nat) : Store :=
  ((sender, crmid), v) :: st

/-- Outcome of one `new_crmdata` dispatch: the returned result (`none` for
Ok, `some e` for an error), the storage after the call, and the events
deposited during the call.  Every error return in the source happens before
the single storage write and event deposit (lib.rs lines 256-260), so error
outcomes carry the unchanged store and no events. -/
structure DispatchResult where
  result : Option CrmError
  store : Store
  events : List (AccountId × Nat)
deriving DecidableEq, Repr

/-- Checks of `new_crmdata` from the JSON-validity check onward (lib.rs
lines 130-262), after the length, id and duplicate checks have passed; each
`ensure!(cond, e)` is an early error return when `cond` fails. -/
def new_crmdata_checks (st : Store) (sender : AccountId) (crmid : Nat)
    (crmdata : List Nat) : DispatchResult :=
  if ¬ (json_check_validity crmdata = true) then ⟨some .InvalidJson, st, []⟩
  else if ¬ (4 ≤ (ipfshash crmdata).length) then ⟨some .InvalidIpfsHash, st, []⟩
  else if ¬ (4 ≤ (ipfshashprivate crmdata).length) then ⟨some .InvalidIpfsHashPrivate, st, []⟩
  else if ¬ (0 < globalquorumvalue crmdata) then ⟨some .InvalidGlobalQuorum, st, []⟩
  else if ¬ (globalquorumvalue crmdata ≤ 100) then ⟨some .InvalidGlobalQuorum, st, []⟩
  else if ¬ (0 < mastersharevalue crmdata) then ⟨some .InvalidMasterShare, st, []⟩
  else if ¬ (mastersharevalue crmdata ≤ 100) then ⟨some .InvalidMasterShare, st, []⟩
  else if ¬ (0 < masterquorumvalue crmdata) then ⟨some .InvalidMasterQuorum, st, []⟩
  else if ¬ (masterquorumvalue crmdata ≤ 100) then ⟨some .InvalidMasterQuorum, st, []⟩
  else if ¬ (0 < compositionsharevalue crmdata) then ⟨some .InvalidCompositionShare, st, []⟩
  else if ¬ (compositionsharevalue crmdata ≤ 100) then ⟨some .InvalidCompositionShare, st, []⟩
  else if ¬ (0 < compositionquorumvalue crmdata) then ⟨some .InvalidCompositionQuorum, st, []⟩
  else if ¬ (compositionquorumvalue crmdata ≤ 100) then ⟨some .InvalidCompositionQuorum, st, []⟩
  else if ¬ (othercontractssharevalue crmdata ≤ 100) then ⟨some .InvalidOtherContractsShare, st, []⟩
  else if ¬ (othercontractsquorumvalue crmdata ≤ 100) then ⟨some .InvalidOtherContractsQuorum, st, []⟩
  else if ¬ (crodwfundingsharevalue crmdata ≤ 100) then ⟨some .InvalidCrowdFundingshares, st, []⟩
  else if ¬ (totalshares crmdata = 100) then ⟨some .InvalidTotalShares, st, []⟩
  else ⟨none, crmdata_insert st sender crmid crmdata, [(sender, crmid)]⟩

/-- Dispatchable `new_crmdata` (lib.rs lines 112-263): length checks, id
check, duplicate-key check, then the validation pipeline; on full success
the payload is inserted at (sender, crmid) and `CrmAdded(sender, crmid)` is
emitted. -/
def new_crmdata (st : Store) (sender : AccountId) (crmid : Nat)
    (crmdata : List Nat) : DispatchResult :=
  if ¬ (8 ≤ crmdata.length) then ⟨some .TooShort, st, []⟩
  else if ¬ (crmdata.length ≤ 8192) then ⟨some .TooLong, st, []⟩
  else if ¬ (0 < crmid) then ⟨some .InvalidValue, st, []⟩
  else
    match crmdata_get st sender crmid with
    | some _ => ⟨some .DuplicatedCrmId, st, []⟩
    | none => new_crmdata_checks st sender crmid crmdata

/-- Concrete scenario payload from the source's own example (lib.rs line
109): the flat object with ipfshash, ipfshashprivate, globalquorum 100,
mastershare 50, masterquorum 51, compositionshare 30, compositionquorum 51,
othercontractsshare 20, othercontractsquorum 51, and no crowd-funding
field. -/
def scenarioPayload : List Nat := [123, 34, 105, 112, 102, 115, 104, 97, 115, 104, 34, 58, 34, 48, 69, 55, 48, 55, 49, 67, 53, 57, 68, 70, 51, 66, 57, 52, 53, 52, 68, 49, 68, 49, 56, 65, 49, 53, 50, 55, 48, 65, 65, 51, 54, 68, 53, 52, 70, 56, 57, 54, 48, 54, 65, 53, 55, 54, 68, 67, 54, 50, 49, 55, 53, 55, 65, 70, 68, 52, 52, 65, 68, 49, 68, 50, 69, 34, 44, 34, 105, 112, 102, 115, 104, 97, 115, 104, 112, 114, 105, 118, 97, 116, 101, 34, 58, 34, 66, 52, 53, 49, 54, 53, 69, 68, 51, 67, 68, 52, 51, 55, 66, 57, 70, 70, 65, 68, 48, 50, 65, 50, 65, 65, 68, 50, 50, 65, 52, 68, 68, 67, 54, 57, 49, 54, 50, 52, 55, 48, 69, 50, 54, 50, 50, 57, 56, 50, 56, 56, 57, 67, 69, 53, 56, 50, 54, 70, 54, 69, 51, 68, 34, 44, 34, 103, 108, 111, 98, 97, 108, 113, 117, 111, 114, 117, 109, 34, 58, 49, 48, 48, 44, 34, 109, 97, 115, 116, 101, 114, 115, 104, 97, 114, 101, 34, 58, 53, 48, 44, 34, 109, 97, 115, 116, 101, 114, 113, 117, 111, 114, 117, 109, 34, 58, 53, 49, 44, 34, 99, 111, 109, 112, 111, 115, 105, 116, 105, 111, 110, 115, 104, 97, 114, 101, 34, 58, 51, 48, 44, 34, 99, 111, 109, 112, 111, 115, 105, 116, 105, 111, 110, 113, 117, 111, 114, 117, 109, 34, 58, 53, 49, 44, 34, 111, 116, 104, 101, 114, 99, 111, 110, 116, 114, 97, 99, 116, 115, 115, 104, 97, 114, 101, 34, 58, 50, 48, 44, 34, 111, 116, 104, 101, 114, 99, 111, 110, 116, 114, 97, 99, 116, 115, 113, 117, 111, 114, 117, 109, 34, 58, 53, 49, 125]

/-- The scenario payload with the mastershare value changed from 50 to 10,
so the shares sum to 80 instead of 100 (spec section 8's failing variant). -/
def scenarioPayloadBad : List Nat := [123, 34, 105, 112, 102, 115, 104, 97, 115, 104, 34, 58, 34, 48, 69, 55, 48, 55, 49, 67, 53, 57, 68, 70, 51, 66, 57, 52, 53, 52, 68, 49, 68, 49, 56, 65, 49, 53, 50, 55, 48, 65, 65, 51, 54, 68, 53, 52, 70, 56, 57, 54, 48, 54, 65, 53, 55, 54, 68, 67, 54, 50, 49, 55, 53, 55, 65, 70, 68, 52, 52, 65, 68, 49, 68, 50, 69, 34, 44, 34, 105, 112, 102, 115, 104, 97, 115, 104, 112, 114, 105, 118, 97, 116, 101, 34, 58, 34, 66, 52, 53, 49, 54, 53, 69, 68, 51, 67, 68, 52, 51, 55, 66, 57, 70, 70, 65, 68, 48, 50, 65, 50, 65, 65, 68, 50, 50, 65, 52, 68, 68, 67, 54, 57, 49, 54, 50, 52, 55, 48, 69, 50, 54, 50, 50, 57, 56, 50, 56, 56, 57, 67, 69, 53, 56, 50, 54, 70, 54, 69, 51, 68, 34, 44, 34, 103, 108, 111, 98, 97, 108, 113, 117, 111, 114, 117, 109, 34, 58, 49, 48, 48, 44, 34, 109, 97, 115, 116, 101, 114, 115, 104, 97, 114, 101, 34, 58, 49, 48, 44, 34, 109, 97, 115, 116, 101, 114, 113, 117, 111, 114, 117, 109, 34, 58, 53, 49, 44, 34, 99, 111, 109, 112, 111, 115, 105, 116, 105, 111, 110, 115, 104, 97, 114, 101, 34, 58, 51, 48, 44, 34, 99, 111, 109, 112, 111, 115, 105, 116, 105, 111, 110, 113, 117, 111, 114, 117, 109, 34, 58, 53, 49, 44, 34, 111, 116, 104, 101, 114, 99, 111, 110, 116, 114, 97, 99, 116, 115, 115, 104, 97, 114, 101, 34, 58, 50, 48, 44, 34, 111, 116, 104, 101, 114, 99, 111, 110, 116, 114, 97, 99, 116, 115, 113, 117, 111, 114, 117, 109, 34, 58, 53, 49, 125]

/-- Document with an unmatched opening brace in its interior (two opening
braces, one closing brace), balanced square brackets (none), first byte an
opening brace and last byte a closing brace. -/
def unbalancedDoc : List Nat := [123, 123, 34, 97, 34, 58, 34, 98, 34, 125]

/-- Spec-side first-failing-check pipeline, written from the words of spec
section 4.3 (and the order restated in claim C2): each listed check in the
listed order, returning the listed error of the first failing check, `none`
when all pass.  It reuses the embedded extractor and decoders, which both
the spec's pipeline and the source's pipeline invoke identically. -/
def validate_first_error (st : Store) (owner : AccountId) (contractId : Nat)
    (payload : List Nat) : Option CrmError :=
  if payload.length < 8 then some .TooShort
  else if 8192 < payload.length then some .TooLong
  else if ¬ (0 < contractId) then some .InvalidValue
  else if (crmdata_get st owner contractId).isSome then some .DuplicatedCrmId
  else if json_check_validity payload = false then some .InvalidJson
  else if (ipfshash payload).length < 4 then some .InvalidIpfsHash
  else if (ipfshashprivate payload).length < 4 then some .InvalidIpfsHashPrivate
  else if ¬ (0 < globalquorumvalue payload ∧ globalquorumvalue payload ≤ 100) then
    some .InvalidGlobalQuorum
  else if ¬ (0 < mastersharevalue payload ∧ mastersharevalue payload ≤ 100) then
    some .InvalidMasterShare
  else if ¬ (0 < masterquorumvalue payload ∧ masterquorumvalue payload ≤ 100) then
    some .InvalidMasterQuorum
  else if ¬ (0 < compositionsharevalue payload ∧ compositionsharevalue payload ≤ 100) then
    some .InvalidCompositionShare
  else if ¬ (0 < compositionquorumvalue payload ∧ compositionquorumvalue payload ≤ 100) then
    some .InvalidCompositionQuorum
  else if ¬ (othercontractssharevalue payload ≤ 100) then some .InvalidOtherContractsShare
  else if ¬ (othercontractsquorumvalue payload ≤ 100) then some .InvalidOtherContractsQuorum
  else if ¬ (crodwfundingsharevalue payload ≤ 100) then some .InvalidCrowdFundingshares
  else if ¬ (totalshares payload = 100) then some .InvalidTotalShares
  else none

/-- Master evaluation lemma: the embedded `new_crmdata` equals the spec-side
first-failing-check pipeline, packaged with the frame (on an error the store
is unchanged and no events are deposited; on success the payload is inserted
and the one CrmAdded event deposited). -/
theorem new_crmdata_eq_pipeline (st : Store) (s : AccountId) (c : Nat) (d : List Nat) :
    new_crmdata st s c d =
      match validate_first_error st s c d with
      | some e => ⟨some e, st, []⟩
      | none => ⟨none, crmdata_insert st s c d, [(s, c)]⟩ := by
  unfold new_crmdata new_crmdata_checks validate_first_error
  by_cases h1 : 8 ≤ d.length
  case neg => rw [if_pos h1, if_pos (by omega : d.length < 8)]
  rw [if_neg (not_not_intro h1), if_neg (by omega : ¬ d.length < 8)]
  by_cases h2 : d.length ≤ 8192
  case neg => rw [if_pos h2, if_pos (by omega : 8192 < d.length)]
  rw [if_neg (not_not_intro h2), if_neg (by omega : ¬ 8192 < d.length)]
  by_cases h3 : 0 < c
  case neg => rw [if_pos h3, if_pos h3]
  rw [if_neg (not_not_intro h3), if_neg (not_not_intro h3)]
  rcases hg : crmdata_get st s c with _ | v
  swap
  · simp only [hg]
    rw [if_pos (by simp : ((some v).isSome = true))]
  simp only [hg]
  rw [if_neg (by simp : ¬ ((none : Option (List Nat)).isSome = true))]
  by_cases h4 : json_check_validity d = true
  case neg => rw [if_pos h4, if_pos (by simpa using h4 : json_check_validity d = false)]
  rw [if_neg (not_not_intro h4), if_neg (by simp [h4] : ¬ json_check_validity d = false)]
  by_cases h5 : 4 ≤ (ipfshash d).length
  case neg => rw [if_pos h5, if_pos (by omega : (ipfshash d).length < 4)]
  rw [if_neg (not_not_intro h5), if_neg (by omega : ¬ (ipfshash d).length < 4)]
  by_cases h6 : 4 ≤ (ipfshashprivate d).length
  case neg => rw [if_pos h6, if_pos (by omega : (ipfshashprivate d).length < 4)]
  rw [if_neg (not_not_intro h6), if_neg (by omega : ¬ (ipfshashprivate d).length < 4)]
  by_cases h7 : 0 < globalquorumvalue d
  case neg => rw [if_pos h7, if_pos (by tauto : ¬ (0 < globalquorumvalue d ∧ globalquorumvalue d ≤ 100))]
  rw [if_neg (not_not_intro h7)]
  by_cases h8 : globalquorumvalue d ≤ 100
  case neg => rw [if_pos h8, if_pos (by tauto : ¬ (0 < globalquorumvalue d ∧ globalquorumvalue d ≤ 100))]
  rw [if_neg (not_not_intro h8), if_neg (not_not_intro (And.intro h7 h8))]
  by_cases h9 : 0 < mastersharevalue d
  case neg => rw [if_pos h9, if_pos (by tauto : ¬ (0 < mastersharevalue d ∧ mastersharevalue d ≤ 100))]
  rw [if_neg (not_not_intro h9)]
  by_cases h10 : mastersharevalue d ≤ 100
  case neg => rw [if_pos h10, if_pos (by tauto : ¬ (0 < mastersharevalue d ∧ mastersharevalue d ≤ 100))]
  rw [if_neg (not_not_intro h10), if_neg (not_not_intro (And.intro h9 h10))]
  by_cases h11 : 0 < masterquorumvalue d
  case neg => rw [if_pos h11, if_pos (by tauto : ¬ (0 < masterquorumvalue d ∧ masterquorumvalue d ≤ 100))]
  rw [if_neg (not_not_intro h11)]
  by_cases h12 : masterquorumvalue d ≤ 100
  case neg => rw [if_pos h12, if_pos (by tauto : ¬ (0 < masterquorumvalue d ∧ masterquorumvalue d ≤ 100))]
  rw [if_neg (not_not_intro h12), if_neg (not_not_intro (And.intro h11 h12))]
  by_cases h13 : 0 < compositionsharevalue d
  case neg => rw [if_pos h13, if_pos (by tauto : ¬ (0 < compositionsharevalue d ∧ compositionsharevalue d ≤ 100))]
  rw [if_neg (not_not_intro h13)]
  by_cases h14 : compositionsharevalue d ≤ 100
  case neg => rw [if_pos h14, if_pos (by tauto : ¬ (0 < compositionsharevalue d ∧ compositionsharevalue d ≤ 100))]
  rw [if_neg (not_not_intro h14), if_neg (not_not_intro (And.intro h13 h14))]
  by_cases h15 : 0 < compositionquorumvalue d
  case neg => rw [if_pos h15, if_pos (by tauto : ¬ (0 < compositionquorumvalue d ∧ compositionquorumvalue d ≤ 100))]
  rw [if_neg (not_not_intro h15)]
  by_cases h16 : compositionquorumvalue d ≤ 100
  case neg => rw [if_pos h16, if_pos (by tauto : ¬ (0 < compositionquorumvalue d ∧ compositionquorumvalue d ≤ 100))]
  rw [if_neg (not_not_intro h16), if_neg (not_not_intro (And.intro h15 h16))]
  by_cases h17 : othercontractssharevalue d ≤ 100
  case neg => rw [if_pos h17, if_pos h17]
  rw [if_neg (not_not_intro h17), if_neg (not_not_intro h17)]
  by_cases h18 : othercontractsquorumvalue d ≤ 100
  case neg => rw [if_pos h18, if_pos h18]
  rw [if_neg (not_not_intro h18), if_neg (not_not_intro h18)]
  by_cases h19 : crodwfundingsharevalue d ≤ 100
  case neg => rw [if_pos h19, if_pos h19]
  rw [if_neg (not_not_intro h19), if_neg (not_not_intro h19)]
  by_cases h20 : totalshares d = 100
  case neg => rw [if_pos h20, if_pos h20]
  rw [if_neg (not_not_intro h20), if_neg (not_not_intro h20)]

/-- Lookup after inserting at the same key returns the inserted payload. -/
theorem crmdata_get_insert_self (st : Store) (s : AccountId) (c : Nat)
    (v : List Nat) : crmdata_get (crmdata_insert st s c v) s c = some v := by
  simp [crmdata_get, crmdata_insert, List.find?]

/-- Lookup at any other key is unaffected by the insert. -/
theorem crmdata_get_insert_ne (st : Store) (s s' : AccountId) (c c' : Nat)
    (v : List Nat) (h : ¬ (s' = s ∧ c' = c)) :
    crmdata_get (crmdata_insert st s c v) s' c' = crmdata_get st s' c' := by
  have : ((s, c).1 == s' && (s, c).2 == c') = false := by
    simp only [beq_iff_eq, Bool.and_eq_false_iff, beq_eq_false_iff_ne, ne_eq]
    by_cases hs : s = s'
    · subst hs
      right
      intro hc
      exact h ⟨rfl, hc.symm⟩
    · exact Or.inl hs
  simp [crmdata_get, crmdata_insert, List.find?, this]

/-- Evaluation of the spec-side pipeline when every check before the
total-shares check passes: the outcome is decided by the total alone. -/
theorem validate_first_error_eval (st : Store) (s : AccountId) (c : Nat) (d : List Nat)
    (h1 : 8 ≤ d.length) (h2 : d.length ≤ 8192) (h3 : 0 < c)
    (h4 : crmdata_get st s c = none) (h5 : json_check_validity d = true)
    (h6 : 4 ≤ (ipfshash d).length) (h7 : 4 ≤ (ipfshashprivate d).length)
    (h8 : 0 < globalquorumvalue d) (h9 : globalquorumvalue d ≤ 100)
    (h10 : 0 < mastersharevalue d) (h11 : mastersharevalue d ≤ 100)
    (h12 : 0 < masterquorumvalue d) (h13 : masterquorumvalue d ≤ 100)
    (h14 : 0 < compositionsharevalue d) (h15 : compositionsharevalue d ≤ 100)
    (h16 : 0 < compositionquorumvalue d) (h17 : compositionquorumvalue d ≤ 100)
    (h18 : othercontractssharevalue d ≤ 100) (h19 : othercontractsquorumvalue d ≤ 100)
    (h20 : crodwfundingsharevalue d ≤ 100) :
    validate_first_error st s c d =
      if totalshares d = 100 then none else some .InvalidTotalShares := by
  unfold validate_first_error
  rw [if_neg (by omega : ¬ d.length < 8), if_neg (by omega : ¬ 8192 < d.length),
    if_neg (not_not_intro h3), if_neg (by simp [h4]),
    if_neg (by simp [h5] : ¬ json_check_validity d = false),
    if_neg (by omega : ¬ (ipfshash d).length < 4),
    if_neg (by omega : ¬ (ipfshashprivate d).length < 4),
    if_neg (not_not_intro (And.intro h8 h9)),
    if_neg (not_not_intro (And.intro h10 h11)),
    if_neg (not_not_intro (And.intro h12 h13)),
    if_neg (not_not_intro (And.intro h14 h15)),
    if_neg (not_not_intro (And.intro h16 h17)),
    if_neg (not_not_intro h18), if_neg (not_not_intro h19), if_neg (not_not_intro h20)]
  by_cases ht : totalshares d = 100 <;> simp [ht]

/-- Payload of exactly eight bytes (the ASCII digit 1 eight times), used as a
stored entry and as a minimal length-valid second payload. -/
def smallPayload : List Nat := [49, 49, 49, 49, 49, 49, 49, 49]

/-- C1: for every call to new_crmdata, the ledger entry (sender, crmid) is
created iff every check of the pipeline passes: on any error the CrmData map
is unchanged and no event is emitted; on success exactly the entry keyed
(sender, crmid) with the submitted payload is inserted and the
CrmAdded(sender, crmid) event is emitted. -/
theorem new_crmdata_persists_iff_all_checks_pass (st : Store) (s : AccountId)
    (c : Nat) (d : List Nat) :
    ((new_crmdata st s c d).result = none →
      (new_crmdata st s c d).store = crmdata_insert st s c d ∧
      crmdata_get (new_crmdata st s c d).store s c = some d ∧
      (new_crmdata st s c d).events = [(s, c)]) ∧
    ((new_crmdata st s c d).result ≠ none →
      (new_crmdata st s c d).store = st ∧ (new_crmdata st s c d).events = []) := by
  rw [new_crmdata_eq_pipeline]
  rcases h : validate_first_error st s c d with _ | e
  · exact ⟨fun _ => ⟨rfl, crmdata_get_insert_self st s c d, rfl⟩,
      fun hne => absurd rfl hne⟩
  · exact ⟨fun hn => Option.noConfusion hn, fun _ => ⟨rfl, rfl⟩⟩

set_option maxRecDepth 100000 in
/-- Witness for C1 at concrete inputs: the scenario payload on an empty store
succeeds and inserts; the same payload with crmid 0 fails and leaves the
store empty with no events. -/
theorem new_crmdata_persists_iff_all_checks_pass_witness :
    ((new_crmdata [] 1 1 scenarioPayload).store = crmdata_insert [] 1 1 scenarioPayload ∧
      crmdata_get (new_crmdata [] 1 1 scenarioPayload).store 1 1 = some scenarioPayload ∧
      (new_crmdata [] 1 1 scenarioPayload).events = [(1, 1)]) ∧
    ((new_crmdata [] 1 0 scenarioPayload).store = [] ∧
      (new_crmdata [] 1 0 scenarioPayload).events = []) :=
  ⟨(new_crmdata_persists_iff_all_checks_pass [] 1 1 scenarioPayload).1 (by decide),
    (new_crmdata_persists_iff_all_checks_pass [] 1 0 scenarioPayload).2 (by decide)⟩

/-- Helper shared by several claims: the result component of `new_crmdata`
is exactly the spec-side first-failing-check pipeline. -/
theorem result_eq_pipeline (st : Store) (s : AccountId) (c : Nat) (d : List Nat) :
    (new_crmdata st s c d).result = validate_first_error st s c d := by
  rw [new_crmdata_eq_pipeline]
  rcases validate_first_error st s c d with _ | e <;> rfl

/-- C2: new_crmdata is fail-fast in exactly the listed order: its result is
the error of the first failing check of the spec-side pipeline (none when
all pass); determinism is immediate since both sides are functions of the
store state and the inputs. -/
theorem new_crmdata_fail_fast_order (st : Store) (s : AccountId) (c : Nat)
    (d : List Nat) :
    (new_crmdata st s c d).result = validate_first_error st s c d :=
  result_eq_pipeline st s c d

/-- C3: when every individual check passes (lengths, id, free key, JSON,
hashes, quorums, individual share bounds), the call succeeds exactly when
the four decoded shares sum to 100, and a sum different from 100 yields
InvalidTotalShares — no other error fires first. -/
theorem shares_sum_invariant (st : Store) (s : AccountId) (c : Nat) (d : List Nat)
    (h1 : 8 ≤ d.length) (h2 : d.length ≤ 8192) (h3 : 0 < c)
    (h4 : crmdata_get st s c = none) (h5 : json_check_validity d = true)
    (h6 : 4 ≤ (ipfshash d).length) (h7 : 4 ≤ (ipfshashprivate d).length)
    (h8 : 0 < globalquorumvalue d) (h9 : globalquorumvalue d ≤ 100)
    (h10 : 0 < mastersharevalue d) (h11 : mastersharevalue d ≤ 100)
    (h12 : 0 < masterquorumvalue d) (h13 : masterquorumvalue d ≤ 100)
    (h14 : 0 < compositionsharevalue d) (h15 : compositionsharevalue d ≤ 100)
    (h16 : 0 < compositionquorumvalue d) (h17 : compositionquorumvalue d ≤ 100)
    (h18 : othercontractssharevalue d ≤ 100) (h19 : othercontractsquorumvalue d ≤ 100)
    (h20 : crodwfundingsharevalue d ≤ 100) :
    (totalshares d = 100 → (new_crmdata st s c d).result = none) ∧
    (totalshares d ≠ 100 → (new_crmdata st s c d).result = some .InvalidTotalShares) := by
  have hv := validate_first_error_eval st s c d h1 h2 h3 h4 h5 h6 h7 h8 h9 h10
    h11 h12 h13 h14 h15 h16 h17 h18 h19 h20
  constructor <;> intro ht
  · rw [new_crmdata_eq_pipeline, hv, if_pos ht]
  · rw [new_crmdata_eq_pipeline, hv, if_neg ht]

set_option maxRecDepth 100000 in
/-- Witness for C3: the scenario payload (shares 50+30+20+0 = 100) succeeds;
its variant with mastershare 10 (sum 80) fails with InvalidTotalShares. -/
theorem shares_sum_invariant_witness :
    (new_crmdata [] 1 1 scenarioPayload).result = none ∧
    (new_crmdata [] 2 1 scenarioPayloadBad).result = some .InvalidTotalShares :=
  ⟨(shares_sum_invariant [] 1 1 scenarioPayload (by decide) (by decide) (by decide)
      (by decide) (by decide) (by decide) (by decide) (by decide) (by decide)
      (by decide) (by decide) (by decide) (by decide) (by decide) (by decide)
      (by decide) (by decide) (by decide) (by decide) (by decide)).1 (by decide),
    (shares_sum_invariant [] 2 1 scenarioPayloadBad (by decide) (by decide) (by decide)
      (by decide) (by decide) (by decide) (by decide) (by decide) (by decide)
      (by decide) (by decide) (by decide) (by decide) (by decide) (by decide)
      (by decide) (by decide) (by decide) (by decide) (by decide)).2 (by decide)⟩

/-- C4 counterexample: with an entry stored at (1, 1), a second call whose
payload is empty (a possible "any payload content") returns TooShort, not
DuplicatedCrmId, so the claim as stated fails. -/
theorem duplicate_any_payload_cex :
    crmdata_get [((1, 1), smallPayload)] 1 1 = some smallPayload ∧
    (new_crmdata [((1, 1), smallPayload)] 1 1 []).result = some .TooShort ∧
    (new_crmdata [((1, 1), smallPayload)] 1 1 []).result ≠ some .DuplicatedCrmId := by
  decide

/-- C4 amended: if an entry for (owner, contractId) with contractId > 0
exists, a second call with the same owner and contractId and any payload of
length between 8 and 8192 returns DuplicatedCrmId and leaves the stored
payload for that key unchanged. -/
theorem duplicate_rejected (st : Store) (s : AccountId) (c : Nat) (d v : List Nat)
    (hex : crmdata_get st s c = some v) (h1 : 8 ≤ d.length)
    (h2 : d.length ≤ 8192) (h3 : 0 < c) :
    (new_crmdata st s c d).result = some .DuplicatedCrmId ∧
    (new_crmdata st s c d).store = st ∧
    crmdata_get (new_crmdata st s c d).store s c = some v := by
  have hv : validate_first_error st s c d = some .DuplicatedCrmId := by
    unfold validate_first_error
    rw [if_neg (by omega : ¬ d.length < 8), if_neg (by omega : ¬ 8192 < d.length),
      if_neg (not_not_intro h3), if_pos (by simp [hex])]
  rw [new_crmdata_eq_pipeline, hv]
  exact ⟨rfl, rfl, hex⟩

/-- Witness for C4 amended at concrete inputs: an entry at (1, 1) and a
second 8-byte payload. -/
theorem duplicate_rejected_witness :
    (new_crmdata [((1, 1), smallPayload)] 1 1 [50, 50, 50, 50, 50, 50, 50, 50]).result =
      some .DuplicatedCrmId ∧
    (new_crmdata [((1, 1), smallPayload)] 1 1 [50, 50, 50, 50, 50, 50, 50, 50]).store =
      [((1, 1), smallPayload)] ∧
    crmdata_get (new_crmdata [((1, 1), smallPayload)] 1 1
      [50, 50, 50, 50, 50, 50, 50, 50]).store 1 1 = some smallPayload :=
  duplicate_rejected [((1, 1), smallPayload)] 1 1
    [50, 50, 50, 50, 50, 50, 50, 50] smallPayload (by decide) (by decide)
    (by decide) (by decide)

set_option maxRecDepth 100000 in
/-- C7: the concrete spec-section-8 scenario payload, called with
contractId 1 and any owner/store for which (owner, 1) is free, succeeds and
stores the record; the absent crowd-funding field decodes to 0 via the
fallback, and the share total is 50 + 30 + 20 + 0 = 100. -/
theorem concrete_scenario_succeeds (st : Store) (s : AccountId)
    (h : crmdata_get st s 1 = none) :
    (new_crmdata st s 1 scenarioPayload).result = none ∧
    (new_crmdata st s 1 scenarioPayload).store = crmdata_insert st s 1 scenarioPayload ∧
    crmdata_get (new_crmdata st s 1 scenarioPayload).store s 1 = some scenarioPayload ∧
    (new_crmdata st s 1 scenarioPayload).events = [(s, 1)] ∧
    crodwfundingsharevalue scenarioPayload = 0 ∧
    mastersharevalue scenarioPayload = 50 ∧
    compositionsharevalue scenarioPayload = 30 ∧
    othercontractssharevalue scenarioPayload = 20 ∧
    totalshares scenarioPayload = 100 := by
  have hv := validate_first_error_eval st s 1 scenarioPayload (by decide) (by decide)
    (by decide) h (by decide) (by decide) (by decide) (by decide) (by decide)
    (by decide) (by decide) (by decide) (by decide) (by decide) (by decide)
    (by decide) (by decide) (by decide) (by decide) (by decide)
  rw [if_pos (by decide : totalshares scenarioPayload = 100)] at hv
  refine ⟨?_, ?_, ?_, ?_, by decide, by decide, by decide, by decide, by decide⟩ <;>
    rw [new_crmdata_eq_pipeline, hv]
  exact crmdata_get_insert_self st s 1 scenarioPayload

set_option maxRecDepth 100000 in
/-- Witness for C7 at a concrete fresh owner and empty store. -/
theorem concrete_scenario_succeeds_witness :
    (new_crmdata [] 7 1 scenarioPayload).result = none ∧
    (new_crmdata [] 7 1 scenarioPayload).store = crmdata_insert [] 7 1 scenarioPayload ∧
    crmdata_get (new_crmdata [] 7 1 scenarioPayload).store 7 1 = some scenarioPayload ∧
    (new_crmdata [] 7 1 scenarioPayload).events = [(7, 1)] ∧
    crodwfundingsharevalue scenarioPayload = 0 ∧
    mastersharevalue scenarioPayload = 50 ∧
    compositionsharevalue scenarioPayload = 30 ∧
    othercontractssharevalue scenarioPayload = 20 ∧
    totalshares scenarioPayload = 100 :=
  concrete_scenario_succeeds [] 7 rfl

/-- C10: whenever control reaches the total-shares computation (the call
returns either success or InvalidTotalShares), each of the four addends has
already been checked to be at most 100, so the total is at most 400 and the
64-bit addition cannot overflow or wrap. -/
theorem totalshares_no_overflow (st : Store) (s : AccountId) (c : Nat) (d : List Nat)
    (h : (new_crmdata st s c d).result = none ∨
      (new_crmdata st s c d).result = some .InvalidTotalShares) :
    mastersharevalue d ≤ 100 ∧ compositionsharevalue d ≤ 100 ∧
    othercontractssharevalue d ≤ 100 ∧ crodwfundingsharevalue d ≤ 100 ∧
    totalshares d ≤ 400 ∧ totalshares d < 2 ^ 64 := by
  rw [result_eq_pipeline] at h
  unfold validate_first_error at h
  by_cases hk1 : 8 ≤ d.length
  case neg => rw [if_pos (by omega : d.length < 8)] at h; simp at h
  rw [if_neg (by omega : ¬ d.length < 8)] at h
  by_cases hk2 : d.length ≤ 8192
  case neg => rw [if_pos (by omega : 8192 < d.length)] at h; simp at h
  rw [if_neg (by omega : ¬ 8192 < d.length)] at h
  by_cases hk3 : 0 < c
  case neg => rw [if_pos hk3] at h; simp at h
  rw [if_neg (not_not_intro hk3)] at h
  rcases hg : crmdata_get st s c with _ | v
  swap
  · simp only [hg] at h
    rw [if_pos (by simp : ((some v).isSome = true))] at h
    simp at h
  simp only [hg] at h
  rw [if_neg (by simp : ¬ ((none : Option (List Nat)).isSome = true))] at h
  by_cases hk4 : json_check_validity d = true
  case neg => rw [if_pos (by simpa using hk4 : json_check_validity d = false)] at h; simp at h
  rw [if_neg (by simp [hk4] : ¬ json_check_validity d = false)] at h
  by_cases hk5 : 4 ≤ (ipfshash d).length
  case neg => rw [if_pos (by omega : (ipfshash d).length < 4)] at h; simp at h
  rw [if_neg (by omega : ¬ (ipfshash d).length < 4)] at h
  by_cases hk6 : 4 ≤ (ipfshashprivate d).length
  case neg => rw [if_pos (by omega : (ipfshashprivate d).length < 4)] at h; simp at h
  rw [if_neg (by omega : ¬ (ipfshashprivate d).length < 4)] at h
  by_cases hb1 : 0 < globalquorumvalue d ∧ globalquorumvalue d ≤ 100
  case neg => rw [if_pos hb1] at h; simp at h
  rw [if_neg (not_not_intro hb1)] at h
  by_cases hb2 : 0 < mastersharevalue d ∧ mastersharevalue d ≤ 100
  case neg => rw [if_pos hb2] at h; simp at h
  rw [if_neg (not_not_intro hb2)] at h
  by_cases hb3 : 0 < masterquorumvalue d ∧ masterquorumvalue d ≤ 100
  case neg => rw [if_pos hb3] at h; simp at h
  rw [if_neg (not_not_intro hb3)] at h
  by_cases hb4 : 0 < compositionsharevalue d ∧ compositionsharevalue d ≤ 100
  case neg => rw [if_pos hb4] at h; simp at h
  rw [if_neg (not_not_intro hb4)] at h
  by_cases hb5 : 0 < compositionquorumvalue d ∧ compositionquorumvalue d ≤ 100
  case neg => rw [if_pos hb5] at h; simp at h
  rw [if_neg (not_not_intro hb5)] at h
  by_cases hb6 : othercontractssharevalue d ≤ 100
  case neg => rw [if_pos hb6] at h; simp at h
  rw [if_neg (not_not_intro hb6)] at h
  by_cases hb7 : othercontractsquorumvalue d ≤ 100
  case neg => rw [if_pos hb7] at h; simp at h
  rw [if_neg (not_not_intro hb7)] at h
  by_cases hb8 : crodwfundingsharevalue d ≤ 100
  case neg => rw [if_pos hb8] at h; simp at h
  rw [if_neg (not_not_intro hb8)] at h
  refine ⟨hb2.2, hb4.2, hb6, hb8, ?_, ?_⟩
  · unfold totalshares
    omega
  · exact lt_of_le_of_lt (show totalshares d ≤ 400 by unfold totalshares; omega)
      (by norm_num)

set_option maxRecDepth 100000 in
/-- Witness for C10 at the concrete successful scenario run. -/
theorem totalshares_no_overflow_witness :
    mastersharevalue scenarioPayload ≤ 100 ∧
    compositionsharevalue scenarioPayload ≤ 100 ∧
    othercontractssharevalue scenarioPayload ≤ 100 ∧
    crodwfundingsharevalue scenarioPayload ≤ 100 ∧
    totalshares scenarioPayload ≤ 400 ∧ totalshares scenarioPayload < 2 ^ 64 :=
  totalshares_no_overflow [] 1 1 scenarioPayload (Or.inl (by decide))

/-- C8: the structural validator returns false for every byte sequence of
length below 2, and false whenever the outer brackets mismatch: first byte
an opening brace with last byte not a closing brace, first byte an opening
square bracket with last byte not a closing square bracket, first byte
neither of the two openers, or last byte neither of the two closers. -/
theorem jcv_rejects_short_and_mismatched (j : List Nat) :
    (j.length < 2 → json_check_validity j = false) ∧
    (j.headD 0 = 123 → j.getLastD 0 ≠ 125 → json_check_validity j = false) ∧
    (j.headD 0 = 91 → j.getLastD 0 ≠ 93 → json_check_validity j = false) ∧
    (j.headD 0 ≠ 123 → j.headD 0 ≠ 91 → json_check_validity j = false) ∧
    (j.getLastD 0 ≠ 125 → j.getLastD 0 ≠ 93 → json_check_validity j = false) := by
  unfold json_check_validity
  split_ifs <;> refine ⟨?_, ?_, ?_, ?_, ?_⟩ <;> intros <;> first | rfl | tauto

/-- Witness for C8 at concrete inputs, one per rejection case. -/
theorem jcv_rejects_short_and_mismatched_witness :
    json_check_validity [123] = false ∧
    json_check_validity [123, 93] = false ∧
    json_check_validity [91, 125] = false ∧
    json_check_validity [97, 98, 125] = false ∧
    json_check_validity [123, 97, 98] = false :=
  ⟨(jcv_rejects_short_and_mismatched [123]).1 (by decide),
    (jcv_rejects_short_and_mismatched [123, 93]).2.1 (by decide) (by decide),
    (jcv_rejects_short_and_mismatched [91, 125]).2.2.1 (by decide) (by decide),
    (jcv_rejects_short_and_mismatched [97, 98, 125]).2.2.2.1 (by decide) (by decide),
    (jcv_rejects_short_and_mismatched [123, 97, 98]).2.2.2.2 (by decide) (by decide)⟩

/-- C5: acceptance at scan end consults only the outside-string flag `s`,
the colon flag `d` and the array-balance flag `ps` — never the
object-balance flag `pg` — so a document with an unmatched opening brace in
its interior (two openers, one closer), balanced square brackets, first byte
an opening brace and last byte a closing brace is accepted. -/
theorem jcv_object_balance_not_consulted :
    (∀ j : List Nat, json_check_validity j =
      (jcv_early_ok j && ((jcv_scan j ⟨true, true, true, true⟩ 32).s &&
        (jcv_scan j ⟨true, true, true, true⟩ 32).d &&
        (jcv_scan j ⟨true, true, true, true⟩ 32).ps))) ∧
    (unbalancedDoc.headD 0 = 123 ∧ unbalancedDoc.getLastD 0 = 125 ∧
      unbalancedDoc.count 123 ≠ unbalancedDoc.count 125 ∧
      unbalancedDoc.count 91 = unbalancedDoc.count 93 ∧
      json_check_validity unbalancedDoc = true) := by
  constructor
  · intro j
    unfold json_check_validity jcv_early_ok
    split_ifs <;> simp
  · decide

/-- Minimal one-field document: open brace, quoted key `k`, colon, quoted
value `v`, close brace. -/
def mkDoc (k v : List Nat) : List Nat :=
  [123, 34] ++ k ++ [34, 58, 34] ++ v ++ [34, 125]

/-- The pattern search on a minimal document matches at position 1 (right
after the opening brace), never at position 0. -/
theorem jgv_loop_mkDoc (k v : List Nat) :
    jgv_loop (mkDoc k v) (([34] ++ k) ++ [34, 58]) 0 = some 1 := by
  have hp : ([34] ++ k) ++ [34, 58] = 34 :: (k ++ [34, 58]) := by simp
  have hd : mkDoc k v = 123 :: 34 :: (k ++ (34 :: 58 :: 34 :: (v ++ [34, 125]))) := by
    simp [mkDoc]
  rw [hd, hp]
  rw [jgv_loop]
  rw [if_neg (by simp)]
  rw [if_neg (by
    rw [List.length_cons, List.take_succ_cons]
    simp)]
  rw [jgv_loop]
  rw [if_neg (by simp)]
  rw [if_pos (by
    rw [List.length_cons, List.take_succ_cons,
      show k ++ (34 :: 58 :: 34 :: (v ++ [34, 125])) =
        (k ++ [34, 58]) ++ (34 :: (v ++ [34, 125])) from by simp,
      List.take_left])]

/-- Inside string mode, the value scan collects every byte of `v` (none of
which is a quote or backslash) and stops at the closing quote. -/
theorem jgv_scan_quoted (v : List Nat) :
    ∀ os lb, lb ≠ 92 → (∀ b ∈ v, b ≠ 34 ∧ b ≠ 92) →
      jgv_scan (v ++ [34]) false os lb = v := by
  induction v with
  | nil =>
      intro os lb hlb _
      simp [jgv_scan, hlb]
  | cons b v ih =>
      intro os lb hlb hv
      have hb := hv b (List.mem_cons_self b v)
      have hrest : ∀ x ∈ v, x ≠ 34 ∧ x ≠ 92 :=
        fun x hx => hv x (List.mem_cons_of_mem b hx)
      simp only [List.cons_append, jgv_scan]
      simp [hb.1]
      exact ih os b hb.2 hrest

/-- C6: extractor round-trip — for every key `k` and every value `v` with no
quote or backslash bytes, extracting `k` from the minimal document returns
exactly the bytes of `v`. -/
theorem extractor_round_trip (k v : List Nat)
    (hv : ∀ b ∈ v, b ≠ 34 ∧ b ≠ 92) :
    json_get_value (mkDoc k v) k = v := by
  simp only [json_get_value, jgv_loop_mkDoc]
  have harg : ((mkDoc k v).drop (1 + (([34] ++ k) ++ [34, 58]).length)).take
      ((mkDoc k v).length - 1 - (1 + (([34] ++ k) ++ [34, 58]).length)) =
      34 :: (v ++ [34]) := by
    have hcount : (mkDoc k v).length - 1 - (1 + (([34] ++ k) ++ [34, 58]).length) =
        v.length + 2 := by
      simp [mkDoc]
      omega
    rw [hcount,
      show mkDoc k v = ([123, 34] ++ (k ++ [34, 58])) ++ (34 :: (v ++ [34, 125])) from
        by simp [mkDoc],
      List.drop_left' (by simp; omega),
      show v.length + 2 = (v.length + 1) + 1 from rfl,
      List.take_succ_cons,
      show v ++ [34, 125] = (v ++ [34]) ++ [125] from by simp,
      List.take_left' (by simp)]
  rw [harg]
  rw [jgv_scan]
  simp only [show ((34 : Nat) = 91 ∧ True ∧ True) = False from by simp,
    show ((34 : Nat) = 125 ∧ True ∧ False) = False from by simp]
  rw [if_neg (by simp), if_pos (by simp)]
  exact jgv_scan_quoted v true 32 (by omega) hv

/-- Witness for C6 at a concrete key and value. -/
theorem extractor_round_trip_witness :
    json_get_value (mkDoc [107] [118, 97, 108]) [107] = [118, 97, 108] :=
  extractor_round_trip [107] [118, 97, 108] (by decide)



/-- Panic-explicit model of the pattern construction loop of
`json_get_value` (lib.rs lines 353-356): each `key.get(xk).unwrap()` is a
lookup returning `none` on an out-of-bounds index (a panic). -/
def build_key_opt (key : List Nat) (xk : Nat) (acc : List Nat) : Option (List Nat) :=
  if xk < key.length then
    (key[xk]?).bind (fun b => build_key_opt key (xk + 1) (acc ++ [b]))
  else some acc
termination_by key.length - xk
decreasing_by simp_wf; omega

/-- Panic-explicit model of the window-compare loop of `json_get_value`
(lib.rs lines 366-371): each `j.get(i).unwrap()` and `k.get(xx).unwrap()` is
a lookup returning `none` on an out-of-bounds index; `m` counts the matching
positions. -/
def jgv_cmp_opt (j k : List Nat) (x t m : Nat) : Option Nat :=
  if t < k.length then
    (j[x + t]?).bind (fun a => (k[t]?).bind (fun b =>
      jgv_cmp_opt j k x (t + 1) (if a = b then m + 1 else m)))
  else some m
termination_by k.length - t
decreasing_by simp_wf; omega

/-- Panic-explicit model of the outer search loop of `json_get_value`
(lib.rs lines 360-372): `none` is a panic inside the compare loop,
`some none` a terminated search without match, `some (some x)` a match at
position `x`. -/
def jgv_find_opt (j k : List Nat) (x : Nat) : Option (Option Nat) :=
  if x < j.length then
    if j.length < x + k.length then some none
    else
      (jgv_cmp_opt j k x 0 0).bind (fun m =>
        if m = k.length then some (some x) else jgv_find_opt j k (x + 1))
  else some none
termination_by j.length - x
decreasing_by simp_wf; omega

/-- Panic-explicit model of the value scan of `json_get_value` (lib.rs
lines 376-401): each `j.get(i).unwrap()` is a lookup returning `none` on an
out-of-bounds index; otherwise the same flag logic as `jgv_scan`. -/
def jgv_scan_opt (j : List Nat) (stop i : Nat) (op os : Bool) (lb : Nat) :
    Option (List Nat) :=
  if i < stop then
    (j[i]?).bind (fun c =>
      let os1 := if c = 91 ∧ op = true ∧ os = true then false else os
      let os2 := if c = 125 ∧ op = true ∧ os1 = false then true else os1
      if c = 58 ∧ op = true then jgv_scan_opt j stop (i + 1) op os2 lb
      else if c = 34 ∧ op = true ∧ lb ≠ 92 then jgv_scan_opt j stop (i + 1) false os2 lb
      else if c = 34 ∧ op = false ∧ lb ≠ 92 then some []
      else if c = 125 ∧ op = true then some []
      else if c = 44 ∧ op = true ∧ os2 = true then some []
      else (jgv_scan_opt j stop (i + 1) op os2 c).map (fun r => c :: r))
  else some []
termination_by stop - i
decreasing_by all_goals simp_wf; omega

/-- Panic-explicit model of `json_get_value` (lib.rs lines 348-406),
composing the panic-explicit loops; `none` anywhere means some `unwrap`
panicked. -/
def json_get_value_opt (j key : List Nat) : Option (List Nat) :=
  (build_key_opt key 0 [34]).bind (fun kmid =>
    let k := kmid ++ [34, 58]
    (jgv_find_opt j k 0).bind (fun r =>
      match r with
      | none => some []
      | some x => jgv_scan_opt j (j.length - 1) (x + k.length) true true 32))

/-- Panic-explicit model of `json_check_validity` (lib.rs lines 267-346):
the two indexed accesses `j.get(0).unwrap()` and `j.get(j.len()-1).unwrap()`
are lookups returning `none` on an out-of-bounds index. -/
def json_check_validity_opt (j : List Nat) : Option Bool :=
  if j.length < 2 then some false
  else
    (j[0]?).bind (fun first => (j[j.length - 1]?).bind (fun last =>
      if first = 123 ∧ last ≠ 125 then some false
      else if first = 91 ∧ last ≠ 93 then some false
      else if first ≠ 123 ∧ first ≠ 91 then some false
      else if last ≠ 125 ∧ last ≠ 93 then some false
      else some ((jcv_scan j ⟨true, true, true, true⟩ 32).s &&
        (jcv_scan j ⟨true, true, true, true⟩ 32).d &&
        (jcv_scan j ⟨true, true, true, true⟩ 32).ps)))

/-- The pattern-build loop never panics and returns the accumulated bytes
followed by the remaining key bytes. -/
theorem build_key_opt_eq (key : List Nat) :
    ∀ n xk acc, key.length - xk ≤ n → xk ≤ key.length →
      build_key_opt key xk acc = some (acc ++ key.drop xk) := by
  intro n
  induction n with
  | zero =>
      intro xk acc hn hx
      have hxk : xk = key.length := by omega
      subst hxk
      rw [build_key_opt, if_neg (by omega)]
      simp
  | succ n ih =>
      intro xk acc hn hx
      by_cases hlt : xk < key.length
      · rw [build_key_opt, if_pos hlt, List.getElem?_eq_getElem hlt]
        simp only [Option.some_bind]
        rw [ih (xk + 1) (acc ++ [key[xk]]) (by omega) (by omega)]
        rw [List.drop_eq_getElem_cons hlt]
        simp
      · have hxk : xk = key.length := by omega
        subst hxk
        rw [build_key_opt, if_neg (by omega)]
        simp



/-- The window-compare loop never panics when the window fits inside the
document; the returned count reaches its maximum exactly when the window
equals the remaining pattern. -/
theorem jgv_cmp_opt_eq (j k : List Nat) (x : Nat) (hx : x + k.length ≤ j.length) :
    ∀ n t m, k.length - t ≤ n → t ≤ k.length →
      ∃ m2, jgv_cmp_opt j k x t m = some m2 ∧ m2 ≤ m + (k.length - t) ∧
        (m2 = m + (k.length - t) ↔
          (j.drop (x + t)).take (k.length - t) = k.drop t) := by
  intro n
  induction n with
  | zero =>
      intro t m hn ht
      have htk : t = k.length := by omega
      subst htk
      rw [jgv_cmp_opt, if_neg (by omega)]
      refine ⟨m, rfl, by omega, ?_⟩
      simp
  | succ n ih =>
      intro t m hn ht
      by_cases hlt : t < k.length
      · have hjt : x + t < j.length := by omega
        rw [jgv_cmp_opt, if_pos hlt, List.getElem?_eq_getElem hjt,
          List.getElem?_eq_getElem hlt]
        simp only [Option.some_bind]
        have hslice : (j.drop (x + t)).take (k.length - t) =
            j[x + t] :: ((j.drop (x + t + 1)).take (k.length - (t + 1))) := by
          rw [List.drop_eq_getElem_cons hjt,
            show k.length - t = (k.length - (t + 1)) + 1 from by omega,
            List.take_succ_cons]
        have hkd : k.drop t = k[t] :: k.drop (t + 1) := List.drop_eq_getElem_cons hlt
        rw [hslice, hkd]
        by_cases he : j[x + t] = k[t]
        · rw [if_pos he]
          obtain ⟨m2, hm2, hle, hiff⟩ := ih (t + 1) (m + 1) (by omega) (by omega)
          refine ⟨m2, hm2, by omega, ?_⟩
          have harith : x + (t + 1) = x + t + 1 := by omega
          rw [harith] at hiff
          constructor
          · intro hm
            have htail := hiff.mp (by omega)
            rw [htail, he]
          · intro hcons
            have htail := (List.cons_eq_cons.mp hcons).2
            have := hiff.mpr htail
            omega
        · rw [if_neg he]
          obtain ⟨m2, hm2, hle, hiff⟩ := ih (t + 1) m (by omega) (by omega)
          refine ⟨m2, hm2, by omega, ?_⟩
          constructor
          · intro hm
            omega
          · intro hcons
            exact absurd (List.cons_eq_cons.mp hcons).1 he
      · have htk : t = k.length := by omega
        subst htk
        rw [jgv_cmp_opt, if_neg (by omega)]
        refine ⟨m, rfl, by omega, ?_⟩
        simp



/-- The outer search loop never panics: it returns exactly the result of the
total suffix-walking search. -/
theorem jgv_find_opt_eq (j k : List Nat) :
    ∀ n x, j.length - x ≤ n →
      jgv_find_opt j k x = some (jgv_loop (j.drop x) k x) := by
  intro n
  induction n with
  | zero =>
      intro x hn
      rw [jgv_find_opt, if_neg (by omega), List.drop_eq_nil_of_le (by omega)]
      rfl
  | succ n ih =>
      intro x hn
      by_cases hx : x < j.length
      · have hd : j.drop x = j[x] :: j.drop (x + 1) := List.drop_eq_getElem_cons hx
        rw [jgv_find_opt, if_pos hx, hd, jgv_loop]
        by_cases hlen : j.length < x + k.length
        · rw [if_pos hlen, if_pos (by simp; omega)]
        · rw [if_neg hlen, if_neg (by simp; omega)]
          obtain ⟨m2, hm2, hle, hiff⟩ :=
            jgv_cmp_opt_eq j k x (by omega) k.length 0 0 (by omega) (by omega)
          simp only [Nat.add_zero, Nat.sub_zero, Nat.zero_add, List.drop_zero] at hiff
          rw [hd] at hiff
          rw [hm2]
          simp only [Option.some_bind]
          by_cases hsl : (j[x] :: j.drop (x + 1)).take k.length = k
          · rw [if_pos (hiff.mpr hsl), if_pos hsl]
          · rw [if_neg (fun hm => hsl (hiff.mp hm)), if_neg hsl]
            exact ih (x + 1) (by omega)
      · rw [jgv_find_opt, if_neg hx, List.drop_eq_nil_of_le (by omega)]
        rfl



set_option maxHeartbeats 1600000 in
/-- The value scan never panics when the stop index is at most the document
length: it returns exactly the total scan of the corresponding slice. -/
theorem jgv_scan_opt_eq (j : List Nat) (stop : Nat) (hstop : stop ≤ j.length) :
    ∀ n i op os lb, stop - i ≤ n →
      jgv_scan_opt j stop i op os lb =
        some (jgv_scan ((j.drop i).take (stop - i)) op os lb) := by
  intro n
  induction n with
  | zero =>
      intro i op os lb hn
      rw [jgv_scan_opt, if_neg (by omega), show stop - i = 0 from by omega]
      simp [jgv_scan]
  | succ n ih =>
      intro i op os lb hn
      by_cases hi : i < stop
      · have hij : i < j.length := by omega
        rw [jgv_scan_opt, if_pos hi, List.getElem?_eq_getElem hij,
          show (j.drop i).take (stop - i) =
            j[i] :: ((j.drop (i + 1)).take (stop - (i + 1))) from by
            rw [List.drop_eq_getElem_cons hij,
              show stop - i = (stop - (i + 1)) + 1 from by omega,
              List.take_succ_cons]]
        rw [jgv_scan]
        simp only [Option.some_bind]
        split_ifs
        all_goals (try (exact ih (i + 1) _ _ _ (by omega)))
        all_goals (try (rw [ih (i + 1) _ _ _ (by omega)]))
        all_goals rfl
      · rw [jgv_scan_opt, if_neg hi, show stop - i = 0 from by omega]
        simp [jgv_scan]



/-- Indexed access at 0 of a nonempty list is its head. -/
theorem getElem_opt_head (l : List Nat) (h : l ≠ []) :
    l[0]? = some (l.headD 0) := by
  rcases l with _ | ⟨a, t⟩
  · exact absurd rfl h
  · simp

/-- Indexed access at length - 1 of a nonempty list is its last element. -/
theorem getElem_opt_last (l : List Nat) (h : l ≠ []) :
    l[l.length - 1]? = some (l.getLastD 0) := by
  induction l with
  | nil => exact absurd rfl h
  | cons a t ih =>
      rcases t with _ | ⟨b, t2⟩
      · simp
      · have hih := ih (by simp)
        rw [show (a :: b :: t2).length - 1 = (b :: t2).length - 1 + 1 from by simp,
          List.getElem?_cons_succ, hih, List.getLastD_cons, List.getLastD_cons,
          List.getLastD_cons]

/-- The structural validator never panics: the panic-explicit model returns
exactly the total validator's verdict. -/
theorem json_check_validity_opt_eq (j : List Nat) :
    json_check_validity_opt j = some (json_check_validity j) := by
  unfold json_check_validity_opt json_check_validity
  by_cases hl : j.length < 2
  · rw [if_pos hl, if_pos hl]
  · have hne : j ≠ [] := by
      intro he
      subst he
      simp at hl
    rw [if_neg hl, if_neg hl, getElem_opt_head j hne, getElem_opt_last j hne]
    simp only [Option.some_bind]
    split_ifs <;> rfl

/-- The field extractor never panics: the panic-explicit model returns
exactly the total extractor's result. -/
theorem json_get_value_opt_eq (j key : List Nat) :
    json_get_value_opt j key = some (json_get_value j key) := by
  unfold json_get_value_opt json_get_value
  rw [build_key_opt_eq key key.length 0 [34] (by omega) (by omega)]
  simp only [Option.some_bind, List.drop_zero]
  rw [jgv_find_opt_eq j (([34] ++ key) ++ [34, 58]) j.length 0 (by omega)]
  simp only [Option.some_bind, List.drop_zero]
  rcases jgv_loop j (([34] ++ key) ++ [34, 58]) 0 with _ | x
  · rfl
  · exact jgv_scan_opt_eq j (j.length - 1) (by omega)
      (j.length - 1 - (x + (([34] ++ key) ++ [34, 58]).length))
      (x + (([34] ++ key) ++ [34, 58]).length) true true 32 (by omega)

/-- C9: neither scanner ever panics on any input — every indexed access of
the document, the key, or the built pattern made by the panic-explicit
models is in bounds, so both equal the total functions on every input. -/
theorem core_never_panics (j key : List Nat) :
    json_check_validity_opt j = some (json_check_validity j) ∧
    json_get_value_opt j key = some (json_get_value j key) :=
  ⟨json_check_validity_opt_eq j, json_get_value_opt_eq j key⟩


end Crm
